import Mathlib

/-!
Shallow embedding of the credential/session lifecycle of the
coffeetech user service, together with proofs about the claims of its
specification.

Conventions of the embedding:
* time is an abstract `Nat` clock (the unit is the minute, matching the
  `expiration_minutes` granularity of the token store); the value of
  `datetime.datetime.now(bogota_tz)` at each call is passed explicitly;
* the Python in-memory dict `_reset_tokens` is a key-unique association
  list `List (String × TokenInfo)`;
* the relational store is a record of lists (`DB`); SQLAlchemy queries
  become `List.find?` and mutations become explicit functional updates;
* randomness (generated tokens, salts) and the success of outbound email
  delivery are passed in as explicit parameters;
* fallible operations return values of explicit outcome types.
-/

set_option autoImplicit false

namespace CoffeeTech

/-! ## Response envelope (src/utils/response.py) -/

/-- The `data` payload of a response envelope.  The credential flows only
ever attach either no data or the login payload of a session token and a
display name. -/
inductive RespData where
  | empty : RespData
  | session (session_token : String) (name : String) : RespData
deriving Repr, DecidableEq

/-- Envelope produced by `create_response` in src/utils/response.py. -/
structure Response where
  status : String
  message : String
  data : RespData
  status_code : Nat
deriving Repr, DecidableEq

/-- Embeds `create_response(status, message)` with the default empty data and
status code 200 (src/utils/response.py, lines 43-77). -/
def create_response (status message : String) : Response :=
  { status := status, message := message, data := RespData.empty, status_code := 200 }

/-- Embeds `create_response(status, message, data, status_code)` with all
arguments supplied explicitly. -/
def create_response_full (status message : String) (data : RespData) (status_code : Nat) : Response :=
  { status := status, message := message, data := data, status_code := status_code }

/-- Embeds `session_token_invalid_response` (src/utils/response.py, lines 80-92):
the uniform envelope for an invalid session token. -/
def session_token_invalid_response : Response :=
  create_response_full "error" "Credenciales expiradas, cerrando sesión." RespData.empty 401

/-! ## Reset-token store (src/domain/services/password_reset_token_service.py) -/

/-- The per-token record kept by the store: the dict
`{"expires_at": ..., "email": ...}`. -/
structure TokenInfo where
  expires_at : Nat
  email : String
deriving Repr, DecidableEq

/-- The in-memory map `_reset_tokens : Dict[str, Dict]`, embedded as a
key-unique association list. -/
abbrev ResetTokenStore := List (String × TokenInfo)

/-- Embeds `PasswordResetTokenService.get_token_info`: `self._reset_tokens.get(token)`
(lines 34-44).  The method only reads the map. -/
def get_token_info (s : ResetTokenStore) (token : String) : Option TokenInfo :=
  s.lookup token

/-- Embeds `get_token_info` viewed as a state transformer on the store, making
the absence of any write explicit in the type. -/
def get_token_info_op (s : ResetTokenStore) (token : String) : Option TokenInfo × ResetTokenStore :=
  (get_token_info s token, s)

/-- Embeds `PasswordResetTokenService.remove_token` (lines 72-81): delete the
entry under `token` if present, otherwise do nothing. -/
def remove_token (s : ResetTokenStore) (token : String) : ResetTokenStore :=
  s.filter (fun p => p.1 != token)

/-- Embeds `PasswordResetTokenService.store_token` (lines 15-32):
`_reset_tokens[token] = {"expires_at": now + expiration_minutes, "email": email}`,
overwriting any prior entry under the same key. -/
def store_token (s : ResetTokenStore) (token email : String) (now expiration_minutes : Nat) :
    ResetTokenStore :=
  (token, { expires_at := now + expiration_minutes, email := email }) :: remove_token s token

/-- Embeds `PasswordResetTokenService.is_token_valid` (lines 46-70): absent token
is invalid; a present token is invalid and lazily deleted when
`current_time > expires_at`; otherwise valid.  Returns the answer together
with the (possibly swept) store. -/
def is_token_valid (s : ResetTokenStore) (token : String) (now : Nat) :
    Bool × ResetTokenStore :=
  match get_token_info s token with
  | none => (false, s)
  | some info =>
    if info.expires_at < now then (false, remove_token s token) else (true, s)

/-- Embeds `PasswordResetTokenService.cleanup_expired_tokens` (lines 83-95):
remove every entry with `current_time > expires_at`. -/
def cleanup_expired_tokens (s : ResetTokenStore) (now : Nat) : ResetTokenStore :=
  s.filter (fun p => !(p.2.expires_at < now))

/-! ## Password hasher (src/utils/security.py, over the Argon2 library) -/

/-- Modelled from the spec: the opaque hash strings produced and consumed
by the external `argon2` library (the library itself is not part of src/).
Per §4.1 a hash string either parses as a well-formed salted Argon2id hash
of some password, or is malformed/foreign; the constructor partitions the
string space accordingly. -/
inductive HashString where
  | argon (salt : Nat) (password : String) : HashString
  | malformed (raw : String) : HashString
deriving Repr, DecidableEq

/-- Outcome of `argon2.PasswordHasher.verify`, which either returns or
raises `VerifyMismatchError` / `InvalidHash`. -/
inductive ArgonOutcome where
  | ok : ArgonOutcome
  | verifyMismatchError : ArgonOutcome
  | invalidHashError : ArgonOutcome
deriving Repr, DecidableEq

/-- Modelled from the spec: `argon2.PasswordHasher.hash` — always succeeds,
salted per call (the caller supplies the fresh salt). -/
def argon2_hash (salt : Nat) (password : String) : HashString :=
  HashString.argon salt password

/-- Modelled from the spec: `argon2.PasswordHasher.verify` — succeeds iff
the plaintext was used to produce the well-formed hash, raises
`VerifyMismatchError` on a mismatch and `InvalidHash` on a malformed or
foreign hash string. -/
def argon2_verify (hashed : HashString) (plain : String) : ArgonOutcome :=
  match hashed with
  | HashString.argon _ stored =>
    if stored = plain then ArgonOutcome.ok else ArgonOutcome.verifyMismatchError
  | HashString.malformed _ => ArgonOutcome.invalidHashError

/-- Embeds `hash_password` (src/utils/security.py, lines 12-22): `ph.hash(password)`.
The per-call random salt is an explicit argument. -/
def hash_password (salt : Nat) (password : String) : HashString :=
  argon2_hash salt password

/-- Embeds `verify_password` (src/utils/security.py, lines 24-41): calls
`ph.verify` and converts both `VerifyMismatchError` and `InvalidHash`
into `False` instead of propagating them. -/
def verify_password (plain_password : String) (hashed_password : HashString) : Bool :=
  match argon2_verify hashed_password plain_password with
  | ArgonOutcome.ok => true
  | ArgonOutcome.verifyMismatchError => false
  | ArgonOutcome.invalidHashError => false

/-! ## Validators (src/domain/validators.py) -/

/-- Embeds `UserValidator.validate_name` (lines 8-21): `not name or not name.strip()`
fails; otherwise valid (`none`). -/
def validate_name (name : String) : Option String :=
  if name = "" ∨ name.trim = "" then some "El nombre no puede estar vacío" else none

/-- Embeds `UserValidator.validate_password_strength` (lines 39-72): returns
`none` when the password is strong, and the first applicable error message
otherwise.  `re.search` on the ASCII classes `[A-Z]`, `[a-z]`, `\d` and
`[\W_]` becomes a character scan; `[\W_]` matches exactly the characters
that are not alphanumeric, plus the underscore. -/
def validate_password_strength (password : String) : Option String :=
  if password.length < 8 then
    some "La contraseña debe tener al menos 8 caracteres"
  else if !(password.data.any Char.isUpper) then
    some "La contraseña debe incluir al menos una letra mayúscula"
  else if !(password.data.any Char.isLower) then
    some "La contraseña debe incluir al menos una letra minúscula"
  else if !(password.data.any Char.isDigit) then
    some "La contraseña debe incluir al menos un número"
  else if !(password.data.any (fun c => !c.isAlphanum || c == '_')) then
    some "La contraseña debe incluir al menos un carácter especial"
  else
    none

/-! ## Relational state (src/models/models.py rows used by the flows) -/

/-- A row of the `users` table (fields used by the credential flows). -/
structure Account where
  user_id : Nat
  name : String
  email : String
  password_hash : HashString
  verification_token : Option String
  user_state_id : Nat
deriving Repr, DecidableEq

/-- A row of the `user_sessions` table. -/
structure UserSession where
  user_id : Nat
  session_token : String
deriving Repr, DecidableEq

/-- A row of the `user_devices` table. -/
structure UserDevice where
  user_id : Nat
  fcm_token : String
deriving Repr, DecidableEq

/-- A row of the `user_states` table. -/
structure UserState where
  user_state_id : Nat
  name : String
deriving Repr, DecidableEq

/-- The relational store visible to the credential flows. -/
structure DB where
  users : List Account
  sessions : List UserSession
  devices : List UserDevice
  user_states : List UserState
deriving Repr, DecidableEq

/-- Embeds `db.query(Users).filter(Users.email == email).first()`. -/
def find_by_email (db : DB) (email : String) : Option Account :=
  db.users.find? (fun u => u.email == email)

/-- Embeds `db.query(Users).filter(Users.verification_token == token).first()`
(src/domain/user_repository.py, lines 53-63). -/
def find_by_verification_token (db : DB) (token : String) : Option Account :=
  db.users.find? (fun u => u.verification_token == some token)

/-- Embeds `db.query(Users).filter(Users.user_id == user_id).first()`. -/
def find_by_id (db : DB) (uid : Nat) : Option Account :=
  db.users.find? (fun u => u.user_id == uid)

/-- Embeds `get_user_state` (src/domain/user_repository.py, lines 11-26):
`db.query(UserStates).filter(UserStates.name == state_name).first()`. -/
def get_user_state (db : DB) (state_name : String) : Option UserState :=
  db.user_states.find? (fun s => s.name == state_name)

/-- Embeds `db.query(UserSessions).filter(UserSessions.session_token == token).first()`
(src/use_cases/logout_use_case.py, line 22). -/
def find_session (db : DB) (token : String) : Option UserSession :=
  db.sessions.find? (fun s => s.session_token == token)

/-- Embeds `verify_session_token` (src/utils/security.py, lines 57-73; the same
body also appears in src/domain/services/verify_session_token_service.py):
select the user joined to the session with the given token, or `none`. -/
def verify_session_token (db : DB) (session_token : String) : Option Account :=
  match find_session db session_token with
  | none => none
  | some s => find_by_id db s.user_id

/-- Committed update of every `users` row with the given primary key
(SQLAlchemy attribute assignment on the loaded row followed by
`db.commit()`). -/
def update_user (db : DB) (uid : Nat) (f : Account → Account) : DB :=
  { db with users := db.users.map (fun u => if u.user_id == uid then f u else u) }

/-- Embeds `db.add(new_session)` followed by `db.commit()`. -/
def add_session (db : DB) (s : UserSession) : DB :=
  { db with sessions := db.sessions ++ [s] }

/-- Embeds `db.delete(session)` followed by `db.commit()`. -/
def remove_session (db : DB) (s : UserSession) : DB :=
  { db with sessions := db.sessions.erase s }

/-! ## Use-case orchestrations -/

/-- Outcome of a use case: either an envelope returned normally (with the
resulting committed relational state), or an `HTTPException` raised to the
framework after `db.rollback()` (the carried state is the one left
committed). -/
inductive UseCaseOutcome where
  | ok (db : DB) (resp : Response) : UseCaseOutcome
  | httpError (db : DB) (status_code : Nat) : UseCaseOutcome
deriving Repr, DecidableEq

/-- Embeds `LoginRequest` schema fields used by the login flow. -/
structure LoginRequest where
  email : String
  password : String
  fcm_token : Option String
deriving Repr, DecidableEq

/-- Embeds `LoginUseCase._authenticate_user` (src/use_cases/login_use_case.py,
lines 17-24): look up by email, then `verify_password`; `None` when either
step fails. -/
def authenticate_user (db : DB) (req : LoginRequest) : Option Account :=
  match find_by_email db req.email with
  | none => none
  | some user =>
    if verify_password req.password user.password_hash then some user else none

/-- Embeds `LoginUseCase._check_user_verification_status` (lines 26-33): `False`
when the "Verificado" state row is missing or the user is not in it. -/
def check_user_verification_status (db : DB) (user : Account) : Bool :=
  match get_user_state db "Verificado" with
  | none => false
  | some vs => user.user_state_id == vs.user_state_id

/-- Embeds `LoginUseCase._register_user_device` (lines 69-91): with an FCM token,
add a device row unless one with the same user and token exists. -/
def register_user_device (db : DB) (user : Account) (fcm : Option String) : DB :=
  match fcm with
  | none => db
  | some tok =>
    match db.devices.find? (fun d => d.user_id == user.user_id && d.fcm_token == tok) with
    | some _ => db
    | none => { db with devices := db.devices ++ [{ user_id := user.user_id, fcm_token := tok }] }

/-- Embeds `LoginUseCase.execute` (src/use_cases/login_use_case.py, lines 93-127).
`new_verification_token` is the value `generate_verification_token(4)`
would produce, `session_token` the value `generate_verification_token(32)`
would produce, and `email_send_ok` whether
`email_service.send_verification_email` reports success.  In the
unverified branch the new token is committed before the email is sent, so
the `rollback` in the failure handler leaves it in place and the
`HTTPException(500)` carries that committed state. -/
def login_execute (db : DB) (req : LoginRequest) (new_verification_token : String)
    (email_send_ok : Bool) (session_token : String) : UseCaseOutcome :=
  match authenticate_user db req with
  | none => UseCaseOutcome.ok db (create_response "error" "Credenciales incorrectas")
  | some user =>
    if check_user_verification_status db user then
      let db1 := add_session db { user_id := user.user_id, session_token := session_token }
      let db2 := register_user_device db1 user req.fcm_token
      UseCaseOutcome.ok db2
        (create_response_full "success" "Inicio de sesión exitoso"
          (RespData.session session_token user.name) 200)
    else
      let db1 := update_user db user.user_id
        (fun u => { u with verification_token := some new_verification_token })
      if email_send_ok then
        UseCaseOutcome.ok db1
          (create_response "error" "Debes verificar tu correo antes de iniciar sesión")
      else
        UseCaseOutcome.httpError db1 500

/-- Embeds `logout` (src/use_cases/logout_use_case.py, lines 8-40): no matching
session row yields `session_token_invalid_response`; otherwise the row is
deleted and a success envelope returned. -/
def logout (db : DB) (session_token : String) : UseCaseOutcome :=
  match find_session db session_token with
  | none => UseCaseOutcome.ok db session_token_invalid_response
  | some s =>
    UseCaseOutcome.ok (remove_session db s) (create_response "success" "Cierre de sesión exitoso")

/-- Embeds `PasswordChange` schema fields. -/
structure PasswordChange where
  current_password : String
  new_password : String
deriving Repr, DecidableEq

/-- Embeds `ChangePasswordUseCase.execute` (src/use_cases/change_password_use_case.py,
lines 106-152).  Session resolution is the shared `verify_session_token`
query. -/
def change_password_execute (db : DB) (change : PasswordChange) (session_token : String)
    (salt : Nat) : UseCaseOutcome :=
  match verify_session_token db session_token with
  | none => UseCaseOutcome.ok db session_token_invalid_response
  | some user =>
    if !(verify_password change.current_password user.password_hash) then
      UseCaseOutcome.ok db (create_response "error" "Credenciales incorrectas")
    else
      match validate_password_strength change.new_password with
      | some err => UseCaseOutcome.ok db (create_response "error" err)
      | none =>
        UseCaseOutcome.ok
          (update_user db user.user_id
            (fun u => { u with password_hash := hash_password salt change.new_password }))
          (create_response "success" "Cambio de contraseña exitoso")

/-- Embeds `UpdateProfileUseCase.execute` (src/use_cases/update_profile_use_case.py,
lines 15-45). -/
def update_profile_execute (db : DB) (new_name : String) (session_token : String) :
    UseCaseOutcome :=
  match verify_session_token db session_token with
  | none => UseCaseOutcome.ok db session_token_invalid_response
  | some user =>
    match validate_name new_name with
    | some err => UseCaseOutcome.ok db (create_response "error" err)
    | none =>
      UseCaseOutcome.ok (update_user db user.user_id (fun u => { u with name := new_name }))
        (create_response "success" "Perfil actualizado exitosamente")

/-- Embeds `DeleteAccountUseCase.execute` (src/use_cases/delete_account_use_case.py,
lines 18-36): `db.delete(user)` cascades to the sessions and devices of the
account by referential design. -/
def delete_account_execute (db : DB) (session_token : String) : UseCaseOutcome :=
  match verify_session_token db session_token with
  | none => UseCaseOutcome.ok db session_token_invalid_response
  | some user =>
    UseCaseOutcome.ok
      { users := db.users.filter (fun u => u.user_id != user.user_id)
        sessions := db.sessions.filter (fun s => s.user_id != user.user_id)
        devices := db.devices.filter (fun d => d.user_id != user.user_id)
        user_states := db.user_states }
      (create_response "success" "Cuenta eliminada exitosamente")

/-- The apostrophe character, used inside the state-not-found message. -/
def apos : String := String.singleton (Char.ofNat 39)

/-- The message of `UserStateNotFoundError` raised by
`UserRepository.verify_user_email` when the "Verificado" state row is
missing. -/
def verified_state_missing_message : String :=
  "No se encontró el estado " ++ apos ++ "Verificado" ++ apos ++ " para usuarios"

/-- Embeds `UserRepository.verify_user_email` (src/domain/user_repository.py,
lines 158-183): fetch the "Verificado" state row (raising
`UserStateNotFoundError`, here `none`, when absent), then set
`verification_token = None` and `user_state_id` to the verified state and
commit.  No check of the current state of the account is performed. -/
def verify_user_email (db : DB) (user : Account) : Option DB :=
  match get_user_state db "Verificado" with
  | none => none
  | some vs =>
    some (update_user db user.user_id
      (fun u => { u with verification_token := none, user_state_id := vs.user_state_id }))

/-- Embeds `VerifyEmailUseCase.execute` (src/use_cases/verify_email_use_case.py,
lines 30-68); the inline handler `verify_email` in src/endpoints/auth.py
(lines 123-150) performs the same steps.  The best-effort welcome email
cannot change the outcome and is omitted. -/
def verify_email_execute (db : DB) (token : String) : UseCaseOutcome :=
  match find_by_verification_token db token with
  | none => UseCaseOutcome.ok db (create_response "error" "Token inválido")
  | some user =>
    match verify_user_email db user with
    | none =>
      UseCaseOutcome.ok db
        (create_response_full "error" verified_state_missing_message RespData.empty 400)
    | some db1 =>
      UseCaseOutcome.ok db1 (create_response "success" "Correo electrónico verificado exitosamente")

/-- Embeds `PasswordReset` schema fields. -/
structure PasswordReset where
  token : String
  new_password : String
  confirm_password : String
deriving Repr, DecidableEq

/-- The relational store together with the in-memory reset-token store. -/
structure SystemState where
  db : DB
  store : ResetTokenStore
deriving Repr, DecidableEq

/-- The combined strength-failure message of
`ResetPasswordUseCase.execute` (line 54). -/
def reset_strength_error_message : String :=
  "La nueva contraseña debe tener al menos 8 caracteres, incluir una letra mayúscula, una letra minúscula, un número y un carácter especial"

/-- Embeds `ResetPasswordUseCase.execute` (src/use_cases/reset_password_use_case.py,
lines 31-79).  Note on the strength gate: `_is_password_strong` (lines
94-104) returns `UserValidator.validate_password_strength(password)`,
which is `None` for a strong password and an error message string for a
weak one; the guard `if not self._is_password_strong(...)` therefore fires
exactly when the validator returns `None`, i.e. on strong passwords, and
lets weak ones through.  The embedding reproduces this faithfully. -/
def reset_password_execute (s : SystemState) (reset : PasswordReset) (now salt : Nat) :
    SystemState × Response :=
  if reset.new_password ≠ reset.confirm_password then
    (s, create_response "error" "Las contraseñas no coinciden")
  else
    match validate_password_strength reset.new_password with
    | none => (s, create_response "error" reset_strength_error_message)
    | some _ =>
      match is_token_valid s.store reset.token now with
      | (false, store1) =>
        ({ s with store := store1 }, create_response "error" "Token inválido o expirado")
      | (true, store1) =>
        match find_by_verification_token s.db reset.token with
        | none => ({ s with store := store1 }, create_response "error" "Usuario no encontrado")
        | some user =>
          let db1 := update_user s.db user.user_id (fun u =>
            { u with password_hash := hash_password salt reset.new_password,
                     verification_token := none })
          let store2 := remove_token store1 reset.token
          ({ db := db1, store := store2 },
            create_response "success" "Contraseña restablecida exitosamente")

/-! ## Concrete fixtures used to witness the theorems -/

/-- The three state rows of the deployment configuration. -/
def exStates : List UserState :=
  [{ user_state_id := 1, name := "No Verificado" },
   { user_state_id := 2, name := "Verificado" },
   { user_state_id := 3, name := "Suspendido" }]

/-- A verified account. -/
def exVerifiedUser : Account :=
  { user_id := 1, name := "Alice", email := "alice@x.com",
    password_hash := HashString.argon 11 "Abcd123!", verification_token := none,
    user_state_id := 2 }

/-- An unverified account holding a pending verification token. -/
def exUnverifiedUser : Account :=
  { user_id := 2, name := "Bob", email := "bob@x.com",
    password_hash := HashString.argon 12 "Abcd123!", verification_token := some "OLD1",
    user_state_id := 1 }

/-- A suspended account holding a pending verification token. -/
def exSuspendedUser : Account :=
  { user_id := 3, name := "Eve", email := "eve@x.com",
    password_hash := HashString.argon 13 "Abcd123!", verification_token := some "ZZZZ",
    user_state_id := 3 }

/-- A small relational state with one live session. -/
def exDB : DB :=
  { users := [exVerifiedUser, exUnverifiedUser, exSuspendedUser],
    sessions := [{ user_id := 1, session_token := "SESSIONTOKEN123" }],
    devices := [],
    user_states := exStates }

/-- The account targeted by the reset-password fixtures. -/
def resetUser : Account :=
  { user_id := 1, name := "Test User", email := "test@example.com",
    password_hash := HashString.argon 0 "OldPassword1!", verification_token := some "VALID123",
    user_state_id := 2 }

/-- Relational state of the reset-password fixtures. -/
def resetDB : DB :=
  { users := [resetUser], sessions := [], devices := [],
    user_states := [{ user_state_id := 1, name := "No Verificado" },
                    { user_state_id := 2, name := "Verificado" }] }

/-- Token store of the reset-password fixtures: "VALID123" expires at 15. -/
def resetStore : ResetTokenStore :=
  [("VALID123", { expires_at := 15, email := "test@example.com" })]

/-- Combined fixture state for the reset-password flow. -/
def resetState : SystemState := { db := resetDB, store := resetStore }

/-- The state produced by the successful (weak-password) reset run, used to
instantiate the single-use theorem. -/
def resetResultState : SystemState :=
  (reset_password_execute resetState
    { token := "VALID123", new_password := "weakpass1", confirm_password := "weakpass1" } 0 7).1

/-! ## Helper lemmas on the token store -/

theorem get_token_info_eq_none_iff (s : ResetTokenStore) (t : String) :
    get_token_info s t = none ↔ ∀ p ∈ s, p.1 ≠ t := by
  induction s with
  | nil => simp [get_token_info]
  | cons hd tl ih =>
    obtain ⟨k, v⟩ := hd
    by_cases h : t = k
    · subst h
      simp [get_token_info, List.lookup]
    · simp only [get_token_info, List.lookup, beq_eq_false_iff_ne.mpr h, List.mem_cons,
        ne_eq, forall_eq_or_imp] at *
      simp [ih, Ne.symm h]

theorem get_token_info_remove_self (s : ResetTokenStore) (t : String) :
    get_token_info (remove_token s t) t = none := by
  rw [get_token_info_eq_none_iff]
  intro p hp
  have h := List.of_mem_filter hp
  simpa [bne_iff_ne] using h

theorem get_token_info_store_self (s : ResetTokenStore) (t e : String) (t0 T : Nat) :
    get_token_info (store_token s t e t0 T) t =
      some { expires_at := t0 + T, email := e } := by
  simp [store_token, get_token_info, List.lookup]

theorem is_token_valid_of_absent (s : ResetTokenStore) (t : String) (now : Nat)
    (h : get_token_info s t = none) : is_token_valid s t now = (false, s) := by
  simp [is_token_valid, h]

theorem is_token_valid_of_fresh (s : ResetTokenStore) (t : String) (now : Nat)
    (info : TokenInfo) (h : get_token_info s t = some info) (hle : now ≤ info.expires_at) :
    is_token_valid s t now = (true, s) := by
  simp [is_token_valid, h, Nat.not_lt.mpr hle]

theorem is_token_valid_of_expired (s : ResetTokenStore) (t : String) (now : Nat)
    (info : TokenInfo) (h : get_token_info s t = some info) (hlt : info.expires_at < now) :
    is_token_valid s t now = (false, remove_token s t) := by
  simp [is_token_valid, h, hlt]

theorem is_token_valid_true_store (s st : ResetTokenStore) (t : String) (now : Nat)
    (h : is_token_valid s t now = (true, st)) : st = s := by
  cases hg : get_token_info s t with
  | none =>
    rw [is_token_valid_of_absent s t now hg] at h
    exact absurd (congrArg Prod.fst h) (by simp)
  | some info =>
    by_cases hlt : info.expires_at < now
    · rw [is_token_valid_of_expired s t now info hg hlt] at h
      exact absurd (congrArg Prod.fst h) (by simp)
    · rw [is_token_valid_of_fresh s t now info hg (Nat.not_lt.mp hlt)] at h
      exact (congrArg Prod.snd h).symm

/-! ## Helper lemmas on the relational state -/

theorem mem_update_user (db : DB) (uid : Nat) (f : Account → Account)
    (u' : Account) (hm : u' ∈ (update_user db uid f).users) (hid : u'.user_id = uid) :
    ∃ u, u ∈ db.users ∧ u.user_id = uid ∧ u' = f u := by
  simp only [update_user, List.mem_map] at hm
  obtain ⟨u, hu, heq⟩ := hm
  by_cases hc : u.user_id = uid
  · refine ⟨u, hu, hc, ?_⟩
    rw [← heq, if_pos (by simpa using hc)]
  · exfalso
    rw [if_neg (by simpa using hc)] at heq
    exact hc (by rw [heq]; exact hid)

theorem register_user_device_sessions (db : DB) (u : Account) (fcm : Option String) :
    (register_user_device db u fcm).sessions = db.sessions := by
  unfold register_user_device
  cases fcm with
  | none => rfl
  | some tok =>
    cases h : db.devices.find? (fun d => d.user_id == u.user_id && d.fcm_token == tok) <;>
      simp [h]

theorem register_user_device_users (db : DB) (u : Account) (fcm : Option String) :
    (register_user_device db u fcm).users = db.users := by
  unfold register_user_device
  cases fcm with
  | none => rfl
  | some tok =>
    cases h : db.devices.find? (fun d => d.user_id == u.user_id && d.fcm_token == tok) <;>
      simp [h]

theorem find_session_add_session_self (db : DB) (x : UserSession)
    (h : find_session db x.session_token = none) :
    find_session (add_session db x) x.session_token = some x := by
  unfold find_session add_session at *
  simp [List.find?_append, h]

theorem not_mem_of_find_session_none (db : DB) (t : String) (x : UserSession)
    (h : find_session db t = none) (hx : x.session_token = t) : x ∉ db.sessions := by
  intro hm
  have hnp := List.find?_eq_none.mp h x hm
  simp [hx] at hnp

theorem erase_append_singleton (l : List UserSession) (x : UserSession) (h : x ∉ l) :
    (l ++ [x]).erase x = l := by
  rw [List.erase_append_right _ h]
  simp

/-! ## C9: hash round-trip -/

/-- C9: for every password `P`, `verify_password P (hash_password P)` is
`true`; for distinct `P1 ≠ P2`, `verify_password P1 (hash_password P2)` is
`false`; and on a malformed or foreign hash string `verify_password`
returns `false` instead of raising (the `InvalidHash` branch of the
wrapper). -/
theorem hash_verify_round_trip (P P1 P2 raw : String) (salt salt2 : Nat) :
    verify_password P (hash_password salt P) = true ∧
    (P1 ≠ P2 → verify_password P1 (hash_password salt2 P2) = false) ∧
    verify_password P (HashString.malformed raw) = false := by
  refine ⟨?_, ?_, rfl⟩
  · simp [verify_password, hash_password, argon2_hash, argon2_verify]
  · intro hne
    simp [verify_password, hash_password, argon2_hash, argon2_verify,
      if_neg (Ne.symm hne)]

/-- Witness for C9 at concrete passwords. -/
theorem hash_verify_round_trip_witness :
    verify_password "Abcd123!" (hash_password 5 "Abcd123!") = true ∧
    verify_password "Abcd123!" (hash_password 5 "Other456?") = false ∧
    verify_password "Abcd123!" (HashString.malformed "not-an-argon2-hash") = false := by
  have h := hash_verify_round_trip "Abcd123!" "Abcd123!" "Other456?" "not-an-argon2-hash" 5 5
  exact ⟨h.1, h.2.1 (by decide), h.2.2⟩

/-! ## C4: uniform auth-failure envelope -/

/-- C4: when a session token matches no stored session — never issued,
already destroyed, malformed or empty alike — logout, change-password,
update-profile and delete-account all return exactly
`session_token_invalid_response` (status "error", HTTP 401, message
"Credenciales expiradas, cerrando sesión.") and leave the relational
state untouched. -/
theorem auth_failure_uniform (db : DB) (tok : String) (change : PasswordChange)
    (new_name : String) (salt : Nat)
    (h : find_session db tok = none) :
    logout db tok = UseCaseOutcome.ok db session_token_invalid_response ∧
    change_password_execute db change tok salt =
      UseCaseOutcome.ok db session_token_invalid_response ∧
    update_profile_execute db new_name tok =
      UseCaseOutcome.ok db session_token_invalid_response ∧
    delete_account_execute db tok = UseCaseOutcome.ok db session_token_invalid_response := by
  have hv : verify_session_token db tok = none := by
    unfold verify_session_token
    rw [h]
  refine ⟨?_, ?_, ?_, ?_⟩
  · simp [logout, h]
  · simp [change_password_execute, hv]
  · simp [update_profile_execute, hv]
  · simp [delete_account_execute, hv]

/-- Witness for C4: the empty token resolves to no session of `exDB`. -/
theorem auth_failure_uniform_witness :
    logout exDB "" = UseCaseOutcome.ok exDB session_token_invalid_response ∧
    change_password_execute exDB ⟨"Abcd123!", "Efgh456?"⟩ "" 9 =
      UseCaseOutcome.ok exDB session_token_invalid_response ∧
    update_profile_execute exDB "Zoe" "" =
      UseCaseOutcome.ok exDB session_token_invalid_response ∧
    delete_account_execute exDB "" =
      UseCaseOutcome.ok exDB session_token_invalid_response :=
  auth_failure_uniform exDB "" ⟨"Abcd123!", "Efgh456?"⟩ "Zoe" 9 (by decide)

/-! ## C5: uniform incorrect-credentials envelope on login -/

/-- C5: a login whose email matches no account and a login whose email
matches an account but whose password fails hash verification return the
same error envelope ("Credenciales incorrectas"), with the relational
state unchanged in both runs, so the response does not reveal whether the
email exists. -/
theorem login_incorrect_credentials_uniform (db : DB) (req1 req2 : LoginRequest)
    (t1 t2 st1 st2 : String) (ok1 ok2 : Bool) (u : Account)
    (h1 : find_by_email db req1.email = none)
    (h2 : find_by_email db req2.email = some u)
    (h3 : verify_password req2.password u.password_hash = false) :
    login_execute db req1 t1 ok1 st1 =
      UseCaseOutcome.ok db (create_response "error" "Credenciales incorrectas") ∧
    login_execute db req2 t2 ok2 st2 =
      UseCaseOutcome.ok db (create_response "error" "Credenciales incorrectas") := by
  constructor
  · simp [login_execute, authenticate_user, h1]
  · simp [login_execute, authenticate_user, h2, h3]

/-- Witness for C5: unknown email vs. wrong password against `exDB`. -/
theorem login_incorrect_credentials_uniform_witness :
    login_execute exDB ⟨"nobody@x.com", "Abcd123!", none⟩ "T1" true "S1" =
      UseCaseOutcome.ok exDB (create_response "error" "Credenciales incorrectas") ∧
    login_execute exDB ⟨"alice@x.com", "WrongPass9?", none⟩ "T2" true "S2" =
      UseCaseOutcome.ok exDB (create_response "error" "Credenciales incorrectas") :=
  login_incorrect_credentials_uniform exDB ⟨"nobody@x.com", "Abcd123!", none⟩
    ⟨"alice@x.com", "WrongPass9?", none⟩ "T1" "T2" "S1" "S2" true true exVerifiedUser
    (by decide) (by decide) (by decide)

/-! ## C6: state-gated login for non-verified accounts -/

/-- C6: with correct credentials but a non-Verified account, login never
returns a session: it commits a fresh verification token overwriting any
prior one, and then either returns the must-verify error envelope (email
sent) or raises the 500-equivalent with the committed token kept (email
send failed). -/
theorem login_unverified_no_session (db : DB) (req : LoginRequest) (tokNew st : String)
    (user : Account)
    (hauth : authenticate_user db req = some user)
    (hver : check_user_verification_status db user = false) :
    login_execute db req tokNew true st =
      UseCaseOutcome.ok
        (update_user db user.user_id (fun u => { u with verification_token := some tokNew }))
        (create_response "error" "Debes verificar tu correo antes de iniciar sesión") ∧
    login_execute db req tokNew false st =
      UseCaseOutcome.httpError
        (update_user db user.user_id (fun u => { u with verification_token := some tokNew }))
        500 ∧
    (∀ u' ∈ (update_user db user.user_id
        (fun u => { u with verification_token := some tokNew })).users,
      u'.user_id = user.user_id → u'.verification_token = some tokNew) := by
  refine ⟨?_, ?_, ?_⟩
  · simp [login_execute, hauth, hver]
  · simp [login_execute, hauth, hver]
  · intro u' hm hid
    obtain ⟨u, _, _, heq⟩ := mem_update_user db user.user_id _ u' hm hid
    rw [heq]

/-- Witness for C6: Bob is unverified in `exDB`; logging in with his
correct password yields the must-verify error and the overwritten token. -/
theorem login_unverified_no_session_witness :
    login_execute exDB ⟨"bob@x.com", "Abcd123!", none⟩ "NEW1" true "S" =
      UseCaseOutcome.ok
        (update_user exDB 2 (fun u => { u with verification_token := some "NEW1" }))
        (create_response "error" "Debes verificar tu correo antes de iniciar sesión") :=
  (login_unverified_no_session exDB ⟨"bob@x.com", "Abcd123!", none⟩ "NEW1" "S"
    exUnverifiedUser (by decide) (by decide)).1

/-! ## C7: email verification and the missing Suspended guard -/

/-- C7 counterexample: `exSuspendedUser` is in the "Suspendido" state and
holds verification token "ZZZZ"; `verify_email_execute` nevertheless
succeeds, moving the account to the "Verificado" state and clearing the
token, instead of failing with an `InvalidTransition` error as the claim
asserts (no such guard or exception exists anywhere in src/). -/
theorem verify_email_suspended_counterexample :
    get_user_state exDB "Suspendido" = some { user_state_id := 3, name := "Suspendido" } ∧
    exSuspendedUser.user_state_id = 3 ∧
    verify_email_execute exDB "ZZZZ" =
      UseCaseOutcome.ok
        { users := [exVerifiedUser, exUnverifiedUser,
            { exSuspendedUser with verification_token := none, user_state_id := 2 }],
          sessions := [{ user_id := 1, session_token := "SESSIONTOKEN123" }],
          devices := [],
          user_states := exStates }
        (create_response "success" "Correo electrónico verificado exitosamente") := by
  refine ⟨by decide, by decide, by decide⟩

/-- C7 amended: email verification with a token matching no account
returns the generic invalid-token error without touching the state; with a
matching account and the "Verificado" state row present it sets the
account state to Verified and clears the pending token regardless of the
current state of the account (in particular also for Suspended ones). -/
theorem verify_email_transition (db : DB) (token : String) :
    (find_by_verification_token db token = none →
      verify_email_execute db token =
        UseCaseOutcome.ok db (create_response "error" "Token inválido")) ∧
    (∀ user vs, find_by_verification_token db token = some user →
      get_user_state db "Verificado" = some vs →
      verify_email_execute db token =
        UseCaseOutcome.ok
          (update_user db user.user_id (fun u =>
            { u with verification_token := none, user_state_id := vs.user_state_id }))
          (create_response "success" "Correo electrónico verificado exitosamente") ∧
      (∀ u' ∈ (update_user db user.user_id (fun u =>
          { u with verification_token := none, user_state_id := vs.user_state_id })).users,
        u'.user_id = user.user_id →
          u'.user_state_id = vs.user_state_id ∧ u'.verification_token = none)) := by
  constructor
  · intro h
    simp [verify_email_execute, h]
  · intro user vs hfind hstate
    constructor
    · simp [verify_email_execute, hfind, verify_user_email, hstate]
    · intro u' hm hid
      obtain ⟨u, _, _, heq⟩ := mem_update_user db user.user_id _ u' hm hid
      rw [heq]
      exact ⟨rfl, rfl⟩

/-- Witness for C7 amended: an unknown token on `exDB`, and the
verification of unverified Bob via his token. -/
theorem verify_email_transition_witness :
    verify_email_execute exDB "QQQQ" =
      UseCaseOutcome.ok exDB (create_response "error" "Token inválido") ∧
    verify_email_execute exDB "OLD1" =
      UseCaseOutcome.ok
        (update_user exDB 2 (fun u =>
          { u with verification_token := none, user_state_id := 2 }))
        (create_response "success" "Correo electrónico verificado exitosamente") :=
  ⟨(verify_email_transition exDB "QQQQ").1 (by decide),
   ((verify_email_transition exDB "OLD1").2 exUnverifiedUser
     { user_state_id := 2, name := "Verificado" } (by decide) (by decide)).1⟩

/-! ## C8: session round-trip -/

/-- C8: for a Verified account, login creates a session whose returned
token resolves back to that same account; after logout destroys the
session, the same token resolves to nothing. -/
theorem session_round_trip (db : DB) (req : LoginRequest) (tokNew stok : String)
    (user : Account)
    (hauth : authenticate_user db req = some user)
    (hver : check_user_verification_status db user = true)
    (hfresh : find_session db stok = none)
    (hid : find_by_id db user.user_id = some user) :
    login_execute db req tokNew true stok =
      UseCaseOutcome.ok
        (register_user_device (add_session db { user_id := user.user_id, session_token := stok })
          user req.fcm_token)
        (create_response_full "success" "Inicio de sesión exitoso"
          (RespData.session stok user.name) 200) ∧
    verify_session_token
      (register_user_device (add_session db { user_id := user.user_id, session_token := stok })
        user req.fcm_token) stok = some user ∧
    (∃ db3,
      logout (register_user_device
          (add_session db { user_id := user.user_id, session_token := stok })
          user req.fcm_token) stok =
        UseCaseOutcome.ok db3 (create_response "success" "Cierre de sesión exitoso") ∧
      verify_session_token db3 stok = none) := by
  have hs1 : find_session (add_session db { user_id := user.user_id, session_token := stok }) stok
      = some { user_id := user.user_id, session_token := stok } :=
    find_session_add_session_self db _ hfresh
  have hsess2 : (register_user_device
      (add_session db { user_id := user.user_id, session_token := stok })
      user req.fcm_token).sessions
      = db.sessions ++ [{ user_id := user.user_id, session_token := stok }] := by
    rw [register_user_device_sessions]
    rfl
  have hs2 : find_session (register_user_device
      (add_session db { user_id := user.user_id, session_token := stok })
      user req.fcm_token) stok
      = some { user_id := user.user_id, session_token := stok } := by
    unfold find_session
    rw [hsess2]
    unfold find_session add_session at hs1
    simpa using hs1
  have husers2 : (register_user_device
      (add_session db { user_id := user.user_id, session_token := stok })
      user req.fcm_token).users = db.users := by
    rw [register_user_device_users]
    rfl
  have hvst2 : verify_session_token (register_user_device
      (add_session db { user_id := user.user_id, session_token := stok })
      user req.fcm_token) stok = some user := by
    unfold verify_session_token
    rw [hs2]
    unfold find_by_id
    rw [husers2]
    exact hid
  refine ⟨?_, hvst2, ?_⟩
  · simp [login_execute, hauth, hver]
  · refine ⟨remove_session (register_user_device
        (add_session db { user_id := user.user_id, session_token := stok }) user req.fcm_token)
        { user_id := user.user_id, session_token := stok }, ?_, ?_⟩
    · unfold logout
      rw [hs2]
    · have hnotmem : { user_id := user.user_id, session_token := stok } ∉ db.sessions :=
        not_mem_of_find_session_none db stok _ hfresh rfl
      have hfind3 : find_session (remove_session (register_user_device
          (add_session db { user_id := user.user_id, session_token := stok })
          user req.fcm_token)
          { user_id := user.user_id, session_token := stok }) stok = none := by
        unfold find_session remove_session
        rw [hsess2, erase_append_singleton db.sessions _ hnotmem]
        unfold find_session at hfresh
        exact hfresh
      unfold verify_session_token
      rw [hfind3]

/-- Witness for C8: Alice logs in on `exDB` with the fresh session token
"FRESHTOKEN", which then resolves back to her account. -/
theorem session_round_trip_witness :
    verify_session_token
      (register_user_device (add_session exDB { user_id := 1, session_token := "FRESHTOKEN" })
        exVerifiedUser none) "FRESHTOKEN" = some exVerifiedUser :=
  (session_round_trip exDB ⟨"alice@x.com", "Abcd123!", none⟩ "T" "FRESHTOKEN" exVerifiedUser
    (by decide) (by decide) (by decide) (by decide)).2.1

/-! ## C3: token expiry and the boundary instant -/

/-- C3 counterexample: a token stored at time 0 with TTL 15 is still
reported valid by `is_token_valid` at the exact expiry instant `0 + 15`,
because the code tests `current_time > expires_at` strictly; the claim
asserts invalidity for any check performed at or after `t0 + T`. -/
theorem token_expiry_boundary_counterexample :
    (is_token_valid (store_token [] "abcd" "user@x.com" 0 15) "abcd" (0 + 15)).1 = true := by
  decide

/-- C3 amended: a token stored at `t0` with TTL `T` is valid for every
check at or before `t0 + T` and invalid (with lazy deletion) for every
check strictly after `t0 + T`; an absent token is always invalid; and
whenever a present token is found expired the failing check deletes its
entry. -/
theorem token_expiry_monotone (s : ResetTokenStore) (token email : String) (t0 T now : Nat) :
    (now ≤ t0 + T →
      is_token_valid (store_token s token email t0 T) token now =
        (true, store_token s token email t0 T)) ∧
    (t0 + T < now →
      is_token_valid (store_token s token email t0 T) token now =
        (false, remove_token (store_token s token email t0 T) token)) ∧
    (get_token_info s token = none → is_token_valid s token now = (false, s)) ∧
    (∀ info, get_token_info s token = some info → info.expires_at < now →
      is_token_valid s token now = (false, remove_token s token) ∧
      get_token_info (remove_token s token) token = none) := by
  refine ⟨?_, ?_, ?_, ?_⟩
  · intro h
    exact is_token_valid_of_fresh _ _ _ _ (get_token_info_store_self s token email t0 T) h
  · intro h
    exact is_token_valid_of_expired _ _ _ _ (get_token_info_store_self s token email t0 T) h
  · intro h
    exact is_token_valid_of_absent _ _ _ h
  · intro info hinfo hlt
    exact ⟨is_token_valid_of_expired _ _ _ _ hinfo hlt, get_token_info_remove_self s token⟩

/-- Witness for C3 amended, at concrete times around the boundary. -/
theorem token_expiry_monotone_witness :
    is_token_valid (store_token [] "abcd" "u@x.com" 0 15) "abcd" 14 =
      (true, store_token [] "abcd" "u@x.com" 0 15) ∧
    is_token_valid (store_token [] "abcd" "u@x.com" 0 15) "abcd" 16 =
      (false, remove_token (store_token [] "abcd" "u@x.com" 0 15) "abcd") ∧
    is_token_valid [] "zzzz" 3 = (false, ([] : ResetTokenStore)) ∧
    (is_token_valid [("abcd", { expires_at := 15, email := "u@x.com" })] "abcd" 20 =
      (false, remove_token [("abcd", { expires_at := 15, email := "u@x.com" })] "abcd") ∧
     get_token_info
       (remove_token [("abcd", { expires_at := 15, email := "u@x.com" })] "abcd") "abcd" =
       none) :=
  ⟨(token_expiry_monotone [] "abcd" "u@x.com" 0 15 14).1 (by decide),
   (token_expiry_monotone [] "abcd" "u@x.com" 0 15 16).2.1 (by decide),
   (token_expiry_monotone [] "zzzz" "e" 0 0 3).2.2.1 (by decide),
   (token_expiry_monotone [("abcd", { expires_at := 15, email := "u@x.com" })] "abcd" "e" 0 0
     20).2.2.2 { expires_at := 15, email := "u@x.com" } (by decide) (by decide)⟩

/-! ## C10: get_token_info is a pure read -/

/-- C10: `get_token_info` never writes the store (its state-transformer
form returns the store unchanged); it reports the stored record for a
present token even past its expiry instant — expiry there is enforced only
by `is_token_valid` (and `cleanup_expired_tokens`), never by the read —
and it reports `none` exactly for keys not in the store, in particular
after removal. -/
theorem get_token_info_pure_read (s : ResetTokenStore) (token email : String) (t0 T now : Nat) :
    (get_token_info_op s token).2 = s ∧
    get_token_info_op (store_token s token email t0 T) token =
      (some { expires_at := t0 + T, email := email }, store_token s token email t0 T) ∧
    (t0 + T < now →
      (get_token_info_op (store_token s token email t0 T) token).1 =
        some { expires_at := t0 + T, email := email } ∧
      (is_token_valid (store_token s token email t0 T) token now).1 = false) ∧
    (get_token_info s token = none ↔ ∀ p ∈ s, p.1 ≠ token) ∧
    get_token_info (remove_token s token) token = none := by
  refine ⟨rfl, ?_, ?_, get_token_info_eq_none_iff s token, get_token_info_remove_self s token⟩
  · unfold get_token_info_op
    rw [get_token_info_store_self]
  · intro h
    constructor
    · unfold get_token_info_op
      rw [get_token_info_store_self]
    · rw [is_token_valid_of_expired _ _ _ _ (get_token_info_store_self s token email t0 T) h]

/-- Witness for C10: an expired-but-unswept entry is still reported. -/
theorem get_token_info_pure_read_witness :
    (get_token_info_op (store_token [] "abcd" "u@x.com" 0 15) "abcd").1 =
      some { expires_at := 15, email := "u@x.com" } ∧
    (is_token_valid (store_token [] "abcd" "u@x.com" 0 15) "abcd" 99).1 = false :=
  (get_token_info_pure_read [] "abcd" "u@x.com" 0 15 99).2.2.1 (by decide)

/-! ## C1: the inverted strength gate of reset-password -/

/-- C1 evidence: in `ResetPasswordUseCase.execute` the helper
`_is_password_strong` returns `UserValidator.validate_password_strength`
unchanged — `None` for a strong password, an error-message string for a
weak one — and the guard `if not _is_password_strong(...)` therefore
rejects exactly the strong passwords.  On the fixture state (valid token
"VALID123", matching account): a strong matching password is answered with
the strength error and nothing changes, never reaching token validation;
a weak matching password (no uppercase) sails through the gate and the
reset succeeds; mismatching passwords are still rejected first even when
strong; and the token was valid throughout, so the strength error cannot
be blamed on the token step. -/
theorem reset_password_strength_gate_inverted :
    validate_password_strength "NewPassword123!" = none ∧
    reset_password_execute resetState
        { token := "VALID123", new_password := "NewPassword123!",
          confirm_password := "NewPassword123!" } 0 7 =
      (resetState, create_response "error" reset_strength_error_message) ∧
    validate_password_strength "weakpass1" =
      some "La contraseña debe incluir al menos una letra mayúscula" ∧
    (reset_password_execute resetState
        { token := "VALID123", new_password := "weakpass1",
          confirm_password := "weakpass1" } 0 7).2 =
      create_response "success" "Contraseña restablecida exitosamente" ∧
    reset_password_execute resetState
        { token := "VALID123", new_password := "NewPassword123!",
          confirm_password := "Different456?" } 0 7 =
      (resetState, create_response "error" "Las contraseñas no coinciden") ∧
    (is_token_valid resetStore "VALID123" 0).1 = true := by
  refine ⟨by decide, by decide, by decide, by decide, by decide, by decide⟩

/-! ## C2: single-use reset token -/

/-- C2: every successful reset-password run found an account by the token,
set that account's password hash to the hash of the new password, cleared
its verification-token field, and removed the token from the in-memory
store; afterwards `is_token_valid` on that token is `false` at every
instant, and repeating the same reset-password call fails with the
invalid-or-expired error while changing nothing. -/
theorem reset_password_single_use (s s' : SystemState) (r : PasswordReset) (now salt : Nat)
    (h : reset_password_execute s r now salt =
      (s', create_response "success" "Contraseña restablecida exitosamente")) :
    (∃ user, user ∈ s.db.users ∧ find_by_verification_token s.db r.token = some user ∧
      s'.db = update_user s.db user.user_id (fun u =>
        { u with password_hash := hash_password salt r.new_password,
                 verification_token := none }) ∧
      (∀ u' ∈ s'.db.users, u'.user_id = user.user_id →
        u'.password_hash = hash_password salt r.new_password ∧
        u'.verification_token = none)) ∧
    s'.store = remove_token s.store r.token ∧
    get_token_info s'.store r.token = none ∧
    (∀ now2, is_token_valid s'.store r.token now2 = (false, s'.store)) ∧
    (∀ now2 salt2, reset_password_execute s' r now2 salt2 =
      (s', create_response "error" "Token inválido o expirado")) := by
  unfold reset_password_execute at h ⊢
  split at h
  next hne =>
    have hmsg := congrArg (fun p => p.2.message) h
    simp [create_response] at hmsg
  next hne =>
    split at h
    next hstrength =>
      have hmsg := congrArg (fun p => p.2.message) h
      simp [create_response, reset_strength_error_message] at hmsg
    next msg hstrength =>
      split at h
      next store1 htv =>
        have hmsg := congrArg (fun p => p.2.message) h
        simp [create_response] at hmsg
      next store1 htv =>
        split at h
        next hfind =>
          have hmsg := congrArg (fun p => p.2.message) h
          simp [create_response] at hmsg
        next user hfind =>
          have hstore1 : store1 = s.store := is_token_valid_true_store _ _ _ _ htv
          have hs' : s' =
              { db := update_user s.db user.user_id (fun u =>
                  { u with password_hash := hash_password salt r.new_password,
                           verification_token := none }),
                store := remove_token store1 r.token } :=
            (congrArg Prod.fst h).symm
          subst hstore1
          have hsdb : s'.db = update_user s.db user.user_id (fun u =>
              { u with password_hash := hash_password salt r.new_password,
                       verification_token := none }) := by
            rw [hs']
          have hsstore : s'.store = remove_token s.store r.token := by
            rw [hs']
          have habsent : get_token_info s'.store r.token = none := by
            rw [hsstore]
            exact get_token_info_remove_self s.store r.token
          have hinvalid : ∀ now2, is_token_valid s'.store r.token now2 = (false, s'.store) :=
            fun now2 => is_token_valid_of_absent _ _ _ habsent
          refine ⟨⟨user, ?_, hfind, hsdb, ?_⟩, hsstore, habsent, hinvalid, ?_⟩
          · exact List.mem_of_find?_eq_some hfind
          · intro u' hm hid
            rw [hsdb] at hm
            obtain ⟨u, _, _, heq⟩ := mem_update_user s.db user.user_id _ u' hm hid
            rw [heq]
            exact ⟨rfl, rfl⟩
          · intro now2 salt2
            rw [if_neg hne]
            simp only [hstrength, hinvalid now2]

/-- Witness for C2: the concrete weak-password reset on the fixture state
consumes the token "VALID123", which afterwards is reported invalid. -/
theorem reset_password_single_use_witness :
    get_token_info resetResultState.store "VALID123" = none ∧
    (∀ now2 salt2, reset_password_execute resetResultState
        { token := "VALID123", new_password := "weakpass1", confirm_password := "weakpass1" }
        now2 salt2 =
      (resetResultState, create_response "error" "Token inválido o expirado")) :=
  ⟨(reset_password_single_use resetState resetResultState
      { token := "VALID123", new_password := "weakpass1", confirm_password := "weakpass1" }
      0 7 rfl).2.2.1,
   (reset_password_single_use resetState resetResultState
      { token := "VALID123", new_password := "weakpass1", confirm_password := "weakpass1" }
      0 7 rfl).2.2.2.2⟩

end CoffeeTech
